import Mathlib

/-!
Shallow embedding of the gitingest descriptor-resolution and clone-orchestration
core (`src/gitingest/query_parsing.py` and `src/gitingest/cloning.py`).

Python strings are Lean `String`s; `Optional[str]` is `Option String`; Python
truthiness of an optional string (`if branch:`) is `pyTruthy`; functions that
raise are embedded as `Except String` or `Option` results.  All string
primitives used by the source (split, join, lstrip, lower, slicing) are
re-implemented structurally on `List Char` so that every definition reduces in
the kernel.
-/

/-! ## String helpers (Python string primitives) -/

/-- Python truthiness of an `Optional[str]`: `None` and `""` are falsy. -/
def pyTruthy : Option String → Bool
  | none => false
  | some s => s ≠ ""

/-- Does the character list `hay` start with the character list `needle`? -/
def startsWithChars : List Char → List Char → Bool
  | _, [] => true
  | [], _ :: _ => false
  | a :: as, b :: bs => a == b && startsWithChars as bs

/-- Does the character list `hay` contain `needle` as a contiguous run?
Models Python's `needle in hay` on strings. -/
def hasSubChars : List Char → List Char → Bool
  | [], needle => needle.isEmpty
  | c :: tl, needle => startsWithChars (c :: tl) needle || hasSubChars tl needle

/-- Python `pat in s` (substring containment). -/
def strContainsSub (s pat : String) : Bool :=
  hasSubChars s.toList pat.toList

/-- Python `s.startswith(pat)`. -/
def pyStartsWith (s pat : String) : Bool :=
  startsWithChars s.toList pat.toList

/-- Python `s.endswith(pat)`. -/
def pyEndsWith (s pat : String) : Bool :=
  startsWithChars s.toList.reverse pat.toList.reverse

/-- One splitting step for `pySplitChar`: `acc` holds the reversed current
field. -/
def splitCharAux : List Char → Char → List Char → List String
  | [], _, acc => [String.mk acc.reverse]
  | c :: cs, sep, acc =>
    if c == sep then String.mk acc.reverse :: splitCharAux cs sep []
    else splitCharAux cs sep (c :: acc)

/-- Python `s.split(sep)` for a one-character separator (the source only
splits on `"&"` and `"="`). `"".split(sep) == [""]`. -/
def pySplitChar (s : String) (sep : Char) : List String :=
  splitCharAux s.toList sep []

/-- Python `"/".join(parts)`. -/
def joinSlash : List String → String
  | [] => ""
  | [s] => s
  | s :: t :: rest => s ++ "/" ++ joinSlash (t :: rest)

/-- Python `s.lstrip("/")`: remove every leading slash. -/
def pyLstripSlash (s : String) : String :=
  String.mk (s.toList.dropWhile (fun c => c == '/'))

/-- Python `s[:-1]`: drop the final character (identity on `""`). -/
def pyDropLast (s : String) : String :=
  String.mk s.toList.dropLast

/-- Python `s[n:]`: drop the first `n` characters. -/
def pyDropChars (s : String) (n : Nat) : String :=
  String.mk (s.toList.drop n)

/-- ASCII lower-casing of one character, as Python `str.lower` behaves on the
ASCII branch names compared by the source. -/
def asciiLowerChar (c : Char) : Char :=
  if 'A' ≤ c && c ≤ 'Z' then Char.ofNat (c.toNat + 32) else c

/-- Python `s.lower()` on ASCII strings. -/
def pyLower (s : String) : String :=
  String.mk (s.toList.map asciiLowerChar)

/-! ## Data model -/

/-- `MAX_FILE_SIZE` from `config.py`. -/
def MAX_FILE_SIZE : Nat := 10 * 1024 * 1024

/-- The `CloneConfig` dataclass of `cloning.py`.  `local_path` is the string
form of the destination path. -/
structure CloneConfig where
  url : String
  local_path : String
  commit : Option String := none
  branch : Option String := none
  subpath : String := "/"
  blob : Bool := false
  github_token : Option String := none
deriving Repr, DecidableEq

/-- The `ParsedQuery` dataclass of `query_parsing.py`.  The Python field
`type` is kept under the same name; `local_path` is a string; the pattern
sets are plain lists of strings. -/
structure ParsedQuery where
  user_name : Option String
  repo_name : Option String
  local_path : String
  url : Option String
  slug : String
  id : String
  subpath : String := "/"
  type : Option String := none
  branch : Option String := none
  commit : Option String := none
  max_file_size : Nat := MAX_FILE_SIZE
  ignore_patterns : Option (List String) := none
  include_patterns : Option (List String) := none
  pattern_type : Option String := none
  github_token : Option String := none
deriving Repr, DecidableEq

/-- `ParsedQuery.extact_clone_config` (the source's own spelling): fails when
the `url` field is falsy (Python `if not self.url`), otherwise projects the
clone-relevant fields, with `blob` set iff the query type is `"blob"`. -/
def ParsedQuery.extact_clone_config (q : ParsedQuery) : Except String CloneConfig :=
  if !pyTruthy q.url then
    Except.error "The 'url' parameter is required."
  else
    Except.ok
      { url := q.url.getD ""
        local_path := q.local_path
        commit := q.commit
        branch := q.branch
        subpath := q.subpath
        blob := q.type == some "blob"
        github_token := q.github_token }

/-! ## Ref disambiguation (`_parse_remote_repo`, lines 201-259) -/

/-- Modelled from the spec: `_is_valid_git_commit_hash` is imported from
`gitingest.utils.query_parser_utils`, a module absent from the provided
sources.  Spec 4.3 rule 3: a ref candidate is a commit iff it is a
hexadecimal string of 7 to 40 characters. -/
def isValidGitCommitHash (s : String) : Bool :=
  7 ≤ s.length && s.length ≤ 40 &&
    s.toList.all (fun c =>
      c.isDigit || ('a' ≤ c && c ≤ 'f') || ('A' ≤ c && c ≤ 'F'))

/-- Result of the path analysis of `_parse_remote_repo`: the `type`, `branch`,
`commit` and `subpath` locals. -/
structure RefResolution where
  type : Option String
  branch : Option String
  commit : Option String
  subpath : String
deriving Repr, DecidableEq

/-- Subpath computation for the `blob`/`tree` arm (lines 224-228): when more
than two parts remain, join the tail with `/`, prefix `/`, and append a
trailing `/` for `tree` targets that lack one. -/
def blobTreeSubpath (first : String) (rest : List String) : String :=
  match rest with
  | [] => "/"
  | _ :: _ =>
    let sp := "/" ++ joinSlash rest
    if sp ≠ "" && !pyEndsWith sp "/" && first == "tree" then sp ++ "/" else sp

/-- Subpath computation for the `raw` arm (lines 240-242): plain join, no
trailing-slash adjustment. -/
def rawSubpath (rest : List String) : String :=
  match rest with
  | [] => "/"
  | _ :: _ => "/" ++ joinSlash rest

/-- Lines 208-244 of `_parse_remote_repo`: classify the remaining path parts
into type, branch-or-commit and subpath.  A `blob`/`tree` first part consumes
a ref candidate from the second part; `raw` behaves likewise but only when a
second part exists and forces type `blob`; anything else leaves every field at
its default. -/
def analyzePath : List String → RefResolution
  | [] => { type := none, branch := none, commit := none, subpath := "/" }
  | [first] =>
    if first == "blob" || first == "tree" then
      { type := some first, branch := none, commit := none, subpath := "/" }
    else
      { type := none, branch := none, commit := none, subpath := "/" }
  | first :: second :: rest =>
    if first == "blob" || first == "tree" then
      { type := some first
        branch := if isValidGitCommitHash second then none else some second
        commit := if isValidGitCommitHash second then some second else none
        subpath := blobTreeSubpath first rest }
    else if first == "raw" then
      { type := some "blob"
        branch := if isValidGitCommitHash second then none else some second
        commit := if isValidGitCommitHash second then some second else none
        subpath := rawSubpath rest }
    else
      { type := none, branch := none, commit := none, subpath := "/" }

/-- Lines 248-252: fold the `&`-separated query parts, replacing the branch
with `part.split("=")[1]` for every part starting with `ref=`. -/
def applyRefQuery (branch : Option String) (queryParts : List String) : Option String :=
  queryParts.foldl
    (fun b part =>
      if pyStartsWith part "ref=" then some ((pySplitChar part '=').getD 1 "") else b)
    branch

/-- The greedy accumulation loop of `_configure_branch_and_subpath`
(lines 299-306): keep appending parts to the accumulated candidate, joining
with `/`, and return the first candidate found in the branch list. -/
def greedyBranchMatch : List String → List String → List String → Option String
  | _, [], _ => none
  | acc, p :: rest, branches =>
    let acc' := acc ++ [p]
    let branchName := joinSlash acc'
    if branches.contains branchName then some branchName
    else greedyBranchMatch acc' rest branches

/-- `_configure_branch_and_subpath` (lines 277-306).  The branch-list fetch is
abstracted as an `Except String (List String)` argument (a `RuntimeError` or
the fetched list).  On fetch failure the function returns
`remaining_parts.pop(0)` — popping an empty list raises `IndexError`, which
escapes to the caller and is modelled as `none` (outer `Option`).  On fetch
success it runs the greedy match. -/
def configureBranchAndSubpath (remainingParts : List String)
    (fetchResult : Except String (List String)) : Option (Option String) :=
  match fetchResult with
  | Except.error _ =>
    match remainingParts with
    | [] => none
    | p :: _ => some (some p)
  | Except.ok branches => some (greedyBranchMatch [] remainingParts branches)

/-- Line 248 guard plus lines 249-252: the query override runs only when the
query string is non-empty (Python truthiness of `parsed_url.query`). -/
def queryBranch (branch : Option String) (query : String) : Option String :=
  if query ≠ "" then applyRefQuery branch (pySplitChar query '&') else branch

/-- Lines 201-259 of `_parse_remote_repo`: path analysis, then the `ref=`
query override, then — when both the branch and the commit are falsy — the
branch-list disambiguation, whose failure (modelled `none`) is caught and
leaves the branch unchanged. -/
def resolveRefs (remainingParts : List String) (query : String)
    (fetchResult : Except String (List String)) : RefResolution :=
  let r := analyzePath remainingParts
  let branch := queryBranch r.branch query
  if !pyTruthy branch && !pyTruthy r.commit then
    match configureBranchAndSubpath remainingParts fetchResult with
    | none => { r with branch := branch }
    | some b => { r with branch := b }
  else
    { r with branch := branch }

/-! ## Clone orchestration (`cloning.py`) -/

/-- Lines 86-89 of `clone_repo`: start from the plain URL and, when a truthy
token is present and `"github.com" in url`, splice the token into an
`https://` URL as userinfo (`url[8:]` keeps everything after the scheme). -/
def authenticatedUrl (config : CloneConfig) : String :=
  if pyTruthy config.github_token && strContainsSub config.url "github.com" then
    if pyStartsWith config.url "https://" then
      "https://" ++ config.github_token.getD "" ++ "@" ++ pyDropChars config.url 8
    else config.url
  else config.url

/-- Line 92 of `clone_repo`: the URL handed to the existence probe,
`authenticated_url if github_token else url`. -/
def probeUrl (config : CloneConfig) : String :=
  if pyTruthy config.github_token then authenticatedUrl config else config.url

/-- Lines 75 and 101-113 of `clone_repo`: the argument vector of the clone
invocation.  Always `--single-branch`; partial-clone flags when the subpath is
not `"/"`; `--depth=1` when no truthy commit is pinned, plus `--branch` for a
truthy non-default branch; finally the (possibly authenticated) URL and the
local path. -/
def buildCloneCommand (config : CloneConfig) : List String :=
  let isPartialClone := config.subpath != "/"
  let cmd := ["git", "clone", "--single-branch"]
  let cmd := if isPartialClone then cmd ++ ["--filter=blob:none", "--sparse"] else cmd
  let cmd :=
    if !pyTruthy config.commit then
      let cmd := cmd ++ ["--depth=1"]
      if pyTruthy config.branch &&
          !(pyLower (config.branch.getD "") == "main" ||
            pyLower (config.branch.getD "") == "master") then
        cmd ++ ["--branch", config.branch.getD ""]
      else cmd
    else cmd
  cmd ++ [if pyTruthy config.github_token then authenticatedUrl config else config.url,
          config.local_path]

/-- Lines 118-131 of `clone_repo`: the follow-up checkout invocation, issued
only when a truthy commit is pinned or the clone was partial (`none`
otherwise).  For a partial clone the sparse-checkout target is the subpath
with leading slashes stripped, and additionally `[:-1]` — the last character —
removed when the target is a blob. -/
def buildCheckoutCommand (config : CloneConfig) : Option (List String) :=
  let isPartialClone := config.subpath != "/"
  if pyTruthy config.commit || isPartialClone then
    some (
      let cmd := ["git", "-C", config.local_path]
      let cmd :=
        if isPartialClone then
          if config.blob then
            cmd ++ ["sparse-checkout", "set", pyDropLast (pyLstripSlash config.subpath)]
          else
            cmd ++ ["sparse-checkout", "set", pyLstripSlash config.subpath]
        else cmd
      if pyTruthy config.commit then cmd ++ ["checkout", config.commit.getD ""] else cmd)
  else none

/-- Python `" ".join(parts)`. -/
def joinSpace : List String → String
  | [] => ""
  | [s] => s
  | s :: t :: rest => s ++ " " ++ joinSpace (t :: rest)

/-- Lines 310-312 of `_run_command`: the `RuntimeError` message raised on a
non-zero exit — the space-joined argument vector followed by the captured
error stream, with no redaction pass. -/
def runCommandErrorMessage (args : List String) (stderrText : String) : String :=
  "Command failed: " ++ joinSpace args ++ "\nError: " ++ stderrText

/-- Lines 186-199 of `_check_repo_exists`, given the probe subprocess exit
code and the parsed HTTP status: a non-zero exit is `False`; 200/301 are
`True`; 404/302/401/403 are `False`; anything else raises `RuntimeError`. -/
def checkRepoExists (returncode : Int) (statusCode : Int) : Except String Bool :=
  if returncode ≠ 0 then Except.ok false
  else if statusCode == 200 || statusCode == 301 then Except.ok true
  else if statusCode == 404 || statusCode == 302 || statusCode == 401 || statusCode == 403 then
    Except.ok false
  else Except.error s!"Unexpected status code: {statusCode}"

/-- The host loop of `try_domains_for_user_and_repo` (lines 409-427): probe
each known host in order; a probe error propagates immediately; a `True`
probe returns that host; a `False` probe moves on; exhaustion raises the
token-aware `ValueError`. The probe is abstracted as a function from the
candidate host to the classified result. -/
def tryDomains (hosts : List String) (probe : String → Except String Bool)
    (tokenPresent : Bool) (user_name repo_name : String) : Except String String :=
  match hosts with
  | [] =>
    Except.error
      (if tokenPresent then
        s!"Repository not found or access denied. Check if '{user_name}/{repo_name}' exists and your token has correct permissions."
      else
        s!"Could not find a public repository for '{user_name}/{repo_name}'. For private repositories, provide a GitHub token.")
  | h :: rest =>
    match probe h with
    | Except.error e => Except.error e
    | Except.ok true => Except.ok h
    | Except.ok false => tryDomains rest probe tokenPresent user_name repo_name

/-! ## Helper lemmas -/

/-- A string passing the commit-hash test is non-empty (its length is at
least 7). -/
theorem hash_ne_empty {c : String} (h : isValidGitCommitHash c = true) : c ≠ "" := by
  intro he
  subst he
  simp [isValidGitCommitHash] at h

/-- Every commit produced by the path analysis passed the commit-hash test. -/
theorem analyzePath_commit_hash : ∀ (parts : List String) (c : String),
    (analyzePath parts).commit = some c → isValidGitCommitHash c = true
  | [], c, h => by simp [analyzePath] at h
  | [first], c, h => by
    simp only [analyzePath] at h
    split at h <;> simp at h
  | first :: second :: rest, c, h => by
    simp only [analyzePath] at h
    split at h
    · dsimp only at h
      split at h <;> simp_all
    · split at h
      · dsimp only at h
        split at h <;> simp_all
      · simp at h

/-- The path analysis never sets both a branch and a commit. -/
theorem analyzePath_not_both : ∀ (parts : List String),
    ¬((analyzePath parts).branch.isSome ∧ (analyzePath parts).commit.isSome)
  | [] => by simp [analyzePath]
  | [first] => by
    simp only [analyzePath]
    split <;> simp
  | first :: second :: rest => by
    simp only [analyzePath]
    split
    · dsimp only
      split <;> simp
    · split
      · dsimp only
        split <;> simp
      · simp

/-- Folding query parts none of which starts with `ref=` leaves the branch
unchanged. -/
theorem applyRefQuery_no_ref (b : Option String) (parts : List String)
    (h : ∀ p ∈ parts, pyStartsWith p "ref=" = false) : applyRefQuery b parts = b := by
  induction parts generalizing b with
  | nil => rfl
  | cons p rest ih =>
    have hp := h p (List.mem_cons_self p rest)
    have hrest : ∀ q ∈ rest, pyStartsWith q "ref=" = false :=
      fun q hq => h q (List.mem_cons_of_mem p hq)
    simp only [applyRefQuery, List.foldl_cons, hp]
    exact ih b hrest

/-- The query override leaves the branch unchanged whenever no query part
starts with `ref=`. -/
theorem queryBranch_no_ref (b : Option String) (q : String)
    (h : ∀ p ∈ pySplitChar q '&', pyStartsWith p "ref=" = false) :
    queryBranch b q = b := by
  unfold queryBranch
  split
  · exact applyRefQuery_no_ref _ _ h
  · rfl

/-- A string whose first character is `h` is none of the five clone flags,
which all start with a dash. -/
theorem https_headed_not_flag (x : String)
    (hx : x.data.head? = some 'h') :
    x ∉ (["--single-branch", "--filter=blob:none", "--sparse", "--depth=1", "--branch"] : List String) := by
  intro hmem
  simp only [List.mem_cons, List.not_mem_nil, or_false] at hmem
  rcases hmem with h | h | h | h | h <;> subst h <;> exact absurd hx (by decide)

/-- A token-spliced URL starts with the character `h` of its scheme. -/
theorem spliced_head (t u : String) :
    ("https://" ++ t ++ "@" ++ u).data.head? = some 'h' := rfl

/-! ## Claim theorems -/

/-- Claim C1 (code_bug evidence): on branch list `["feature/x", "main"]` and
remaining segments `["feature", "x", "sub", "dir"]`, the code resolves the
branch `"feature/x"` correctly but leaves the subpath at `"/"` — the
disambiguation never writes the leftover segments `["sub", "dir"]` into the
subpath, contradicting both the spec and the function's own docstring. -/
theorem slash_branch_disambiguation_leaves_subpath_root :
    resolveRefs ["feature", "x", "sub", "dir"] "" (Except.ok ["feature/x", "main"]) =
      { type := none, branch := some "feature/x", commit := none, subpath := "/" } := by
  decide

/-- Claim C2 (counterexample): a path that pins the commit `"abcdef1"`
combined with a `ref=dev` query parameter yields a parse in which branch and
commit are BOTH set, refuting the claimed invariant as stated. -/
theorem branch_and_commit_both_set_with_ref_query :
    (resolveRefs ["blob", "abcdef1"] "ref=dev" (Except.error "unused")).branch = some "dev" ∧
    (resolveRefs ["blob", "abcdef1"] "ref=dev" (Except.error "unused")).commit = some "abcdef1" := by
  decide

/-- Claim C2 (amended): whenever no part of the query string starts with
`ref=`, the parsed result never carries both a branch and a commit. -/
theorem branch_commit_exclusive_without_ref_query
    (parts : List String) (q : String) (fetch : Except String (List String))
    (h : ∀ p ∈ pySplitChar q '&', pyStartsWith p "ref=" = false) :
    ¬((resolveRefs parts q fetch).branch.isSome ∧ (resolveRefs parts q fetch).commit.isSome) := by
  have hq : queryBranch (analyzePath parts).branch q = (analyzePath parts).branch :=
    queryBranch_no_ref _ _ h
  simp only [resolveRefs, hq]
  split
  · rename_i hcond
    have hcommit : (analyzePath parts).commit = none := by
      cases hc : (analyzePath parts).commit with
      | none => rfl
      | some c =>
        have hhash := analyzePath_commit_hash parts c hc
        have hne := hash_ne_empty hhash
        simp [pyTruthy, hc, hne] at hcond
    cases configureBranchAndSubpath parts fetch <;> simp [hcommit]
  · exact analyzePath_not_both parts

/-- Witness for the amended claim C2 at a concrete input. -/
theorem branch_commit_exclusive_witness :
    ¬((resolveRefs ["src", "main.py"] "" (Except.ok ["main"])).branch.isSome ∧
      (resolveRefs ["src", "main.py"] "" (Except.ok ["main"])).commit.isSome) :=
  branch_commit_exclusive_without_ref_query ["src", "main.py"] "" (Except.ok ["main"]) (by decide)

/-- Claim C3 (code_bug evidence): when the clone command of a token-carrying
config fails, the `RuntimeError` message built by `_run_command` contains the
literal token — the command text is not redacted. -/
theorem clone_failure_error_contains_token :
    strContainsSub
      (runCommandErrorMessage
        (buildCloneCommand
          { url := "https://github.com/user/repo",
            local_path := "/tmp/gitingest/id/user-repo",
            github_token := some "ghp_SecretToken1234" })
        "fatal: could not read from remote repository")
      "ghp_SecretToken1234" = true := by
  decide

/-- Claim C4 (counterexample): for a config whose branch is the empty string
— which is set (`isSome`), is not a default branch name, with no commit
pinned — the clone command carries no `--branch` flag, because the code
tests Python truthiness rather than presence. -/
theorem empty_branch_skips_branch_flag :
    ({ url := "https://example.com/u/r", local_path := "/tmp/x",
       branch := some "" } : CloneConfig).branch.isSome = true ∧
    ({ url := "https://example.com/u/r", local_path := "/tmp/x",
       branch := some "" } : CloneConfig).commit = none ∧
    ({ url := "https://example.com/u/r", local_path := "/tmp/x",
       branch := some "" } : CloneConfig).branch ≠ some "main" ∧
    ({ url := "https://example.com/u/r", local_path := "/tmp/x",
       branch := some "" } : CloneConfig).branch ≠ some "master" ∧
    "--branch" ∉ buildCloneCommand
      { url := "https://example.com/u/r", local_path := "/tmp/x", branch := some "" } := by
  decide

/-- Claim C4 (amended): for every config whose URL, local path and branch
name are not themselves clone flags, the command always contains
`--single-branch`; the partial-clone flags appear iff the subpath is not
`"/"`; `--depth=1` appears iff no truthy (non-empty) commit is pinned; and
`--branch` appears iff the branch is truthy, the commit is not, and the
lower-cased branch is neither `main` nor `master`. -/
theorem clone_command_flags (config : CloneConfig)
    (hclean : ∀ s ∈ [config.url, config.local_path, config.branch.getD ""],
      s ∉ (["--single-branch", "--filter=blob:none", "--sparse", "--depth=1", "--branch"] : List String)) :
    "--single-branch" ∈ buildCloneCommand config ∧
    (("--filter=blob:none" ∈ buildCloneCommand config ∧ "--sparse" ∈ buildCloneCommand config) ↔
      config.subpath ≠ "/") ∧
    ("--depth=1" ∈ buildCloneCommand config ↔ pyTruthy config.commit = false) ∧
    ("--branch" ∈ buildCloneCommand config ↔
      (pyTruthy config.branch = true ∧ pyTruthy config.commit = false ∧
       pyLower (config.branch.getD "") ≠ "main" ∧ pyLower (config.branch.getD "") ≠ "master")) := by
  have hfin : (if pyTruthy config.github_token then authenticatedUrl config else config.url) ∉
      (["--single-branch", "--filter=blob:none", "--sparse", "--depth=1", "--branch"] : List String) := by
    split
    · unfold authenticatedUrl
      split
      · split
        · exact https_headed_not_flag _ (spliced_head _ _)
        · exact hclean config.url (by simp)
      · exact hclean config.url (by simp)
    · exact hclean config.url (by simp)
  have hu := hclean config.url (by simp)
  have hp := hclean config.local_path (by simp)
  have hb := hclean (config.branch.getD "") (by simp)
  simp only [List.mem_cons, List.not_mem_nil, or_false, not_or] at hu hp hb hfin
  have hu1 := Ne.symm hu.1
  have hu2 := Ne.symm hu.2.1
  have hu3 := Ne.symm hu.2.2.1
  have hu4 := Ne.symm hu.2.2.2.1
  have hu5 := Ne.symm hu.2.2.2.2
  have hp1 := Ne.symm hp.1
  have hp2 := Ne.symm hp.2.1
  have hp3 := Ne.symm hp.2.2.1
  have hp4 := Ne.symm hp.2.2.2.1
  have hp5 := Ne.symm hp.2.2.2.2
  have hb1 := Ne.symm hb.1
  have hb2 := Ne.symm hb.2.1
  have hb3 := Ne.symm hb.2.2.1
  have hb4 := Ne.symm hb.2.2.2.1
  have hb5 := Ne.symm hb.2.2.2.2
  have hf1 := Ne.symm hfin.1
  have hf2 := Ne.symm hfin.2.1
  have hf3 := Ne.symm hfin.2.2.1
  have hf4 := Ne.symm hfin.2.2.2.1
  have hf5 := Ne.symm hfin.2.2.2.2
  by_cases hpart : config.subpath = "/" <;>
    rcases Bool.eq_false_or_eq_true (pyTruthy config.commit) with hc | hc <;>
    rcases Bool.eq_false_or_eq_true (pyTruthy config.branch) with hB | hB <;>
    by_cases hm : pyLower (config.branch.getD "") = "main" <;>
    by_cases hms : pyLower (config.branch.getD "") = "master" <;>
    simp [buildCloneCommand, hpart, hc, hB, hm, hms, List.mem_cons,
      hu1, hu2, hu3, hu4, hu5, hp1, hp2, hp3, hp4, hp5,
      hb1, hb2, hb3, hb4, hb5, hf1, hf2, hf3, hf4, hf5]

/-- Witness for the amended claim C4 at a concrete input. -/
theorem clone_command_flags_witness :
    "--single-branch" ∈ buildCloneCommand
      { url := "https://github.com/u/r", local_path := "/tmp/x", branch := some "dev" } :=
  (clone_command_flags _ (by decide)).1

/-- Claim C5 (code_bug evidence): for a blob subpath `"/file.py"` with no
trailing separator, the sparse-checkout target passed to the checkout step is
`"file.p"` — the code removes the last character unconditionally instead of
trimming only a trailing separator. -/
theorem blob_sparse_target_drops_last_char :
    buildCheckoutCommand
      { url := "https://github.com/u/r", local_path := "/tmp/x",
        subpath := "/file.py", blob := true } =
      some ["git", "-C", "/tmp/x", "sparse-checkout", "set", "file.p"] := by
  decide

/-- Claim C6: the probe classifies exit/status pairs exactly as claimed — a
zero exit with status 200/301 succeeds, a non-zero exit or a status in
{404, 302, 401, 403} fails softly, and any other status with a zero exit
raises — and the host loop stops on a raised probe error, continues past a
soft failure, and returns the first succeeding host. -/
theorem probe_classification_and_host_iteration
    (rc sc : Int) (host user repo : String) (hosts : List String)
    (probe : String → Except String Bool) (tok : Bool) :
    (checkRepoExists rc sc = Except.ok true ↔ rc = 0 ∧ (sc = 200 ∨ sc = 301)) ∧
    (checkRepoExists rc sc = Except.ok false ↔
      rc ≠ 0 ∨ (rc = 0 ∧ (sc = 404 ∨ sc = 302 ∨ sc = 401 ∨ sc = 403))) ∧
    ((∃ e, checkRepoExists rc sc = Except.error e) ↔
      rc = 0 ∧ sc ≠ 200 ∧ sc ≠ 301 ∧ sc ≠ 404 ∧ sc ≠ 302 ∧ sc ≠ 401 ∧ sc ≠ 403) ∧
    (∀ e, probe host = Except.error e →
      tryDomains (host :: hosts) probe tok user repo = Except.error e) ∧
    (probe host = Except.ok false →
      tryDomains (host :: hosts) probe tok user repo = tryDomains hosts probe tok user repo) ∧
    (probe host = Except.ok true → tryDomains (host :: hosts) probe tok user repo = Except.ok host) := by
  refine ⟨?_, ?_, ?_, ?_, ?_, ?_⟩
  · unfold checkRepoExists
    split_ifs <;> simp_all
  · unfold checkRepoExists
    split_ifs <;> simp_all <;> omega
  · unfold checkRepoExists
    split_ifs <;> simp_all <;> omega
  · intro e he
    simp [tryDomains, he]
  · intro he
    simp [tryDomains, he]
  · intro he
    simp [tryDomains, he]

/-- Witness for claim C6 at concrete inputs: a 200 probe succeeds, and a
probe whose subprocess raises stops the host loop immediately. -/
theorem probe_classification_witness :
    checkRepoExists 0 200 = Except.ok true ∧
    tryDomains ["github.com", "gitlab.com"] (fun _ => Except.error "status 500") false "u" "r" =
      Except.error "status 500" := by
  constructor
  · exact (probe_classification_and_host_iteration 0 200 "github.com" "u" "r" ["gitlab.com"]
      (fun _ => Except.error "status 500") false).1.mpr ⟨rfl, Or.inl rfl⟩
  · exact (probe_classification_and_host_iteration 0 200 "github.com" "u" "r" ["gitlab.com"]
      (fun _ => Except.error "status 500") false).2.2.2.1 "status 500" rfl

/-- Claim C7: when the path analysis resolved neither branch nor commit and
the query injects no `ref=`, a failed branch-list fetch is non-fatal — the
parse completes with the first remaining segment (if any) as the branch — and
a successful fetch with no matching accumulated prefix leaves both branch and
commit unset. -/
theorem branch_fetch_failure_nonfatal
    (parts : List String) (q : String)
    (h1 : (analyzePath parts).branch = none)
    (h2 : (analyzePath parts).commit = none)
    (h3 : ∀ p ∈ pySplitChar q '&', pyStartsWith p "ref=" = false) :
    (∀ e, (resolveRefs parts q (Except.error e)).branch = parts.head? ∧
          (resolveRefs parts q (Except.error e)).commit = none) ∧
    (∀ branches, greedyBranchMatch [] parts branches = none →
      (resolveRefs parts q (Except.ok branches)).branch = none ∧
      (resolveRefs parts q (Except.ok branches)).commit = none) := by
  have hq : queryBranch (analyzePath parts).branch q = none := by
    rw [queryBranch_no_ref _ _ h3, h1]
  constructor
  · intro e
    simp only [resolveRefs, hq, h2]
    cases parts with
    | nil => simp [configureBranchAndSubpath, pyTruthy]
    | cons p rest => simp [configureBranchAndSubpath, pyTruthy]
  · intro branches hg
    simp only [resolveRefs, hq, h2]
    simp [configureBranchAndSubpath, pyTruthy, hg]

/-- Witness for claim C7 at a concrete input: segments `["dev", "sub"]` with
a failing fetch produce branch `"dev"` and no commit. -/
theorem branch_fetch_failure_nonfatal_witness :
    (resolveRefs ["dev", "sub"] "" (Except.error "ls-remote failed")).branch = some "dev" ∧
    (resolveRefs ["dev", "sub"] "" (Except.error "ls-remote failed")).commit = none :=
  (branch_fetch_failure_nonfatal ["dev", "sub"] "" (by decide) (by decide) (by decide)).1
    "ls-remote failed"

/-- Claim C8: under a `blob` or `tree` first segment, a second segment that
passes the 7-to-40-hex commit test becomes the commit with no branch, and one
that fails it becomes the branch with no commit. -/
theorem blob_tree_ref_commit_vs_branch (first second : String) (rest : List String)
    (h : first = "blob" ∨ first = "tree") :
    (isValidGitCommitHash second = true →
      (analyzePath (first :: second :: rest)).commit = some second ∧
      (analyzePath (first :: second :: rest)).branch = none) ∧
    (isValidGitCommitHash second = false →
      (analyzePath (first :: second :: rest)).branch = some second ∧
      (analyzePath (first :: second :: rest)).commit = none) := by
  rcases h with h | h <;> subst h <;>
    constructor <;> intro hv <;> simp [analyzePath, hv]

/-- Witness for claim C8 at a concrete input: `blob/abcdef1/file.py` pins the
commit `abcdef1` and sets no branch. -/
theorem blob_tree_ref_witness :
    (analyzePath ["blob", "abcdef1", "file.py"]).commit = some "abcdef1" ∧
    (analyzePath ["blob", "abcdef1", "file.py"]).branch = none :=
  (blob_tree_ref_commit_vs_branch "blob" "abcdef1" ["file.py"] (Or.inl rfl)).1 (by decide)

/-- Claim C9 (counterexample): a `ParsedQuery` whose `url` field is present
but empty (`some ""`) — so it "has a url" — still fails extraction, because
the code tests Python truthiness, not presence. -/
theorem empty_url_extract_fails :
    ({ user_name := some "u", repo_name := some "r", local_path := "/tmp/x",
       url := some "", slug := "u-r", id := "id0" } : ParsedQuery).url.isSome = true ∧
    ({ user_name := some "u", repo_name := some "r", local_path := "/tmp/x",
       url := some "", slug := "u-r", id := "id0" } : ParsedQuery).extact_clone_config =
      Except.error "The 'url' parameter is required." :=
  ⟨rfl, rfl⟩

/-- Claim C9 (amended): extraction fails with the `ValueError` message iff
the `url` field is `None` or empty, and for a truthy url succeeds with the
`blob` flag set iff the query type is `"blob"`. -/
theorem extract_clone_config_url_gate (q : ParsedQuery) :
    (pyTruthy q.url = false →
      q.extact_clone_config = Except.error "The 'url' parameter is required.") ∧
    (pyTruthy q.url = true →
      q.extact_clone_config =
        Except.ok
          { url := q.url.getD ""
            local_path := q.local_path
            commit := q.commit
            branch := q.branch
            subpath := q.subpath
            blob := q.type == some "blob"
            github_token := q.github_token }) := by
  constructor
  · intro h
    simp [ParsedQuery.extact_clone_config, h]
  · intro h
    simp [ParsedQuery.extact_clone_config, h]

/-- Witness for the amended claim C9 at a concrete input. -/
theorem extract_clone_config_url_gate_witness :
    ({ user_name := some "u", repo_name := some "r", local_path := "/tmp/gitingest/i/u-r",
       url := some "https://github.com/u/r", slug := "u-r", id := "i",
       type := some "blob" } : ParsedQuery).extact_clone_config =
      Except.ok
        { url := "https://github.com/u/r"
          local_path := "/tmp/gitingest/i/u-r"
          commit := none
          branch := none
          subpath := "/"
          blob := true
          github_token := none } :=
  (extract_clone_config_url_gate _).2 (by decide)

/-- Claim C10: the token is attached to the clone URL only when
`"github.com"` occurs in the repository URL, and for any other host the
probe URL and the whole clone command are identical to those of the same
config with no token. -/
theorem token_only_attached_for_github (config : CloneConfig) :
    (authenticatedUrl config ≠ config.url → strContainsSub config.url "github.com" = true) ∧
    (strContainsSub config.url "github.com" = false →
      authenticatedUrl config = config.url ∧
      probeUrl config = config.url ∧
      buildCloneCommand config = buildCloneCommand { config with github_token := none }) := by
  constructor
  · intro hne
    by_cases hg : strContainsSub config.url "github.com" = true
    · exact hg
    · exfalso
      apply hne
      unfold authenticatedUrl
      simp only [Bool.eq_false_iff] at hg
      simp [hg]
  · intro hg
    have hau : authenticatedUrl config = config.url := by
      unfold authenticatedUrl
      simp [hg]
    refine ⟨hau, ?_, ?_⟩
    · unfold probeUrl
      split <;> simp [hau]
    · have hau2 : authenticatedUrl { config with github_token := none } =
          { config with github_token := none }.url := by
        unfold authenticatedUrl
        simp [pyTruthy]
      simp only [buildCloneCommand, hau, hau2, pyTruthy]
      simp only [ite_self, Bool.false_eq_true, if_false]

/-- Witness for claim C10 at a concrete input: a gitlab URL with a token
probes the bare URL. -/
theorem token_only_attached_for_github_witness :
    probeUrl { url := "https://gitlab.com/u/r", local_path := "/tmp/x",
               github_token := some "tok_1234567890" } = "https://gitlab.com/u/r" :=
  ((token_only_attached_for_github _).2 (by decide)).2.1
